import Mathlib

/-!
Verification of the Casper Ignite core contracts (bonding-curve AMM,
order book, escrow vault, vesting scheduler) against their
natural-language specification.

The Rust sources are shallowly embedded:
* `U512` values become `Nat`; every `U512` arithmetic operator of the
  `uint` crate panics (aborts the call) on overflow or underflow, so each
  `+`/`-`/`*` of the source is modelled by a guarded operation that
  returns the exact natural-number result when it fits below `2 ^ 512`
  and an `arithTrap` failure otherwise.  Division is total (the source
  only divides by nonzero constants).
* `runtime::revert(E)` becomes an error return carrying the user error
  code; a panic of the arithmetic layer is kept distinct from the user
  error codes, exactly as on chain (a revert surfaces the `ApiError`
  user code, a panic aborts with a trap).
* Casper dictionaries become association lists (`dictGet` / `dictPut`);
  `dictionary_put` overwrites, which the prepend representation realises
  up to `dictGet`-observation.
* `AccountHash` values become `Nat`; `AccountHash::default()` (the
  all-zero hash) becomes `0`.  Ownership checks that the source performs
  by substring containment of the stringified hash are modelled as
  equality of the stored and calling identity (for honestly stored
  32-byte hashes containment of the full hex body coincides with
  equality).
* Host-transactional semantics: a reverted / trapped call discards all
  pending writes, so every failing entry point returns the pre-state.
  A value transfer is an external call that can fail; its outcome enters
  each entry point as an explicit boolean argument, and the model also
  reports whether a transfer was attempted.
-/

set_option maxRecDepth 8000

/-- The first value that does not fit in a `U512`. -/
def U512_LIMIT : Nat := 2 ^ 512

/-- Fixed-point scale used by all contracts: `10^9` motes per CSPR. -/
def SCALE : Nat := 1000000000

/-- Model of `AccountHash::default()`: the all-zero account hash. -/
def ACCOUNT_HASH_DEFAULT : Nat := 0

/-- Lookup in a Casper dictionary modelled as an association list. -/
def dictGet {β : Type} (l : List (Nat × β)) (k : Nat) : Option β :=
  match l with
  | [] => none
  | (a, b) :: t => if a = k then some b else dictGet t k

/-- Overwriting write into a Casper dictionary (shadowing prepend). -/
def dictPut {β : Type} (l : List (Nat × β)) (k : Nat) (v : β) : List (Nat × β) :=
  (k, v) :: l

instance {ε α : Type} [DecidableEq ε] [DecidableEq α] :
    DecidableEq (Except ε α) := fun a b =>
  match a, b with
  | .ok x, .ok y =>
    if h : x = y then isTrue (by rw [h]) else
      isFalse (fun hh => h (Except.ok.inj hh))
  | .ok _, .error _ => isFalse (fun hh => Except.noConfusion hh)
  | .error _, .ok _ => isFalse (fun hh => Except.noConfusion hh)
  | .error e, .error f =>
    if h : e = f then isTrue (by rw [h]) else
      isFalse (fun hh => h (Except.error.inj hh))

-- ===========================================================================
-- Bonding-curve AMM (src/contracts/amm/src/main.rs)
-- ===========================================================================

/-- Error codes of the AMM contract (`enum AmmError`). -/
inductive AmmError : Type
  | NotAuthorized        -- 1
  | AlreadyInitialized   -- 2
  | NotInitialized       -- 3
  | InsufficientPayment  -- 4
  | InsufficientTokens   -- 5
  | InsufficientReserve  -- 6
  | InvalidAmount        -- 7
  | TransferFailed       -- 8
  | MathOverflow         -- 9
  | MissingKey           -- 10
  | SlippageExceeded     -- 11
  deriving DecidableEq, Repr

/-- Ways an AMM call can fail: a `runtime::revert` with a user error
code, or an arithmetic panic of a `U512` operator (the `uint` crate
panics on overflow/underflow, aborting the call without any user error
code). -/
inductive AmmFailure : Type
  | user (e : AmmError)
  | arithTrap
  deriving DecidableEq, Repr

/-- Model of `calculate_buy_cost` (amm/src/main.rs lines 173-197): the
stored `initial_price`, `reserve_ratio` and `total_supply` are passed
explicitly.  Every `U512` multiplication/addition/subtraction of the
source is guarded exactly where the source performs it. -/
def calculate_buy_cost (initial_price reserve_ratio supply amount : Nat) :
    Except AmmFailure Nat :=
  -- let slope_numerator = initial_price * reserve_ratio;
  let slope_numerator := initial_price * reserve_ratio
  if U512_LIMIT ≤ slope_numerator then .error .arithTrap else
  -- let linear_cost = initial_price * amount;
  let linear_cost := initial_price * amount
  if U512_LIMIT ≤ linear_cost then .error .arithTrap else
  -- let s2 = supply + amount;
  let s2 := supply + amount
  if U512_LIMIT ≤ s2 then .error .arithTrap else
  -- let s2_squared = s2 * s2;  let s1_squared = s1 * s1;
  let s2_squared := s2 * s2
  if U512_LIMIT ≤ s2_squared then .error .arithTrap else
  let s1_squared := supply * supply
  if U512_LIMIT ≤ s1_squared then .error .arithTrap else
  -- let diff_squared = s2_squared - s1_squared;  (U512 sub panics on underflow)
  if s2_squared < s1_squared then .error .arithTrap else
  let diff_squared := s2_squared - s1_squared
  -- let quadratic_cost = (slope_numerator * diff_squared) / (20000 * SCALE)
  let quad_num := slope_numerator * diff_squared
  if U512_LIMIT ≤ quad_num then .error .arithTrap else
  let quadratic_cost := quad_num / (20000 * SCALE)
  -- linear_cost + quadratic_cost
  if U512_LIMIT ≤ linear_cost + quadratic_cost then .error .arithTrap else
  .ok (linear_cost + quadratic_cost)

/-- Model of `calculate_sell_proceeds` (amm/src/main.rs lines 200-225). -/
def calculate_sell_proceeds (initial_price reserve_ratio supply amount : Nat) :
    Except AmmFailure Nat :=
  -- if supply < amount { revert(InsufficientTokens) }
  if supply < amount then .error (.user .InsufficientTokens) else
  let slope_numerator := initial_price * reserve_ratio
  if U512_LIMIT ≤ slope_numerator then .error .arithTrap else
  let linear_proceeds := initial_price * amount
  if U512_LIMIT ≤ linear_proceeds then .error .arithTrap else
  -- let s1 = supply;  let s2 = supply - amount;  (guarded above)
  let s2 := supply - amount
  let s1_squared := supply * supply
  if U512_LIMIT ≤ s1_squared then .error .arithTrap else
  let s2_squared := s2 * s2
  if U512_LIMIT ≤ s2_squared then .error .arithTrap else
  -- let diff_squared = s1_squared - s2_squared;
  if s1_squared < s2_squared then .error .arithTrap else
  let diff_squared := s1_squared - s2_squared
  let quad_num := slope_numerator * diff_squared
  if U512_LIMIT ≤ quad_num then .error .arithTrap else
  let quadratic_proceeds := quad_num / (20000 * SCALE)
  if U512_LIMIT ≤ linear_proceeds + quadratic_proceeds then .error .arithTrap else
  .ok (linear_proceeds + quadratic_proceeds)

/-- Stored state of the AMM contract: the named keys `admin`,
`initialized`, `initial_price`, `reserve_ratio`, `total_supply`, the
`token_balances` dictionary, and the balance of the `cspr_reserve`
purse. -/
structure AmmState : Type where
  admin : Nat
  isInit : Bool
  initial_price : Nat
  reserve_ratio : Nat
  total_supply : Nat
  balances : List (Nat × Nat)
  reserve : Nat
  deriving DecidableEq, Repr

/-- Observable outcome of one AMM entry-point call: the state after the
call (equal to the pre-state whenever the call failed, because the host
discards all effects of a reverted or trapped call), the failure if any,
and whether a value transfer was attempted during the call. -/
structure AmmOutcome : Type where
  state : AmmState
  err : Option AmmFailure
  transferAttempted : Bool
  deriving DecidableEq, Repr

/-- Model of the `initialize` entry point (amm/src/main.rs lines
246-271). -/
def initCurve (s : AmmState) (caller initial_price reserve_ratio : Nat) :
    AmmOutcome :=
  -- only_admin();
  if caller ≠ s.admin then ⟨s, some (.user .NotAuthorized), false⟩
  -- if is_initialized() { revert(AlreadyInitialized) }
  else if s.isInit then ⟨s, some (.user .AlreadyInitialized), false⟩
  -- if initial_price == 0 { revert(InvalidAmount) }
  else if initial_price = 0 then ⟨s, some (.user .InvalidAmount), false⟩
  else
    ⟨{ s with initial_price := initial_price, reserve_ratio := reserve_ratio,
              isInit := true }, none, false⟩

/-- Model of the `buy` entry point (amm/src/main.rs lines 274-309).
`transfer_ok` is the outcome of the external
`transfer_from_purse_to_purse` call. -/
def buy (s : AmmState) (caller token_amount max_cost : Nat)
    (transfer_ok : Bool) : AmmOutcome :=
  if !s.isInit then ⟨s, some (.user .NotInitialized), false⟩
  else if token_amount = 0 then ⟨s, some (.user .InvalidAmount), false⟩
  else
    match calculate_buy_cost s.initial_price s.reserve_ratio s.total_supply
        token_amount with
    | .error f => ⟨s, some f, false⟩
    | .ok cost =>
      -- if cost > max_cost { revert(SlippageExceeded) }
      if max_cost < cost then ⟨s, some (.user .SlippageExceeded), false⟩
      -- transfer_from_purse_to_purse(payment_purse, reserve_purse, cost)
      else if !transfer_ok then ⟨s, some (.user .TransferFailed), true⟩
      else
        -- let new_supply = get_total_supply() + token_amount;  (U512 add)
        if U512_LIMIT ≤ s.total_supply + token_amount then
          ⟨s, some .arithTrap, true⟩
        else
          -- set_user_balance(caller, current_balance + token_amount)
          let bal := (dictGet s.balances caller).getD 0
          if U512_LIMIT ≤ bal + token_amount then ⟨s, some .arithTrap, true⟩
          else
            ⟨{ s with total_supply := s.total_supply + token_amount,
                      reserve := s.reserve + cost,
                      balances := dictPut s.balances caller
                        (bal + token_amount) }, none, true⟩

/-- Model of the `sell` entry point (amm/src/main.rs lines 312-359).
The source debits the balance and supply before the outgoing transfer;
a failed transfer reverts the whole call, so those writes are
discarded. -/
def sell (s : AmmState) (caller token_amount min_proceeds : Nat)
    (transfer_ok : Bool) : AmmOutcome :=
  if !s.isInit then ⟨s, some (.user .NotInitialized), false⟩
  else if token_amount = 0 then ⟨s, some (.user .InvalidAmount), false⟩
  else
    let bal := (dictGet s.balances caller).getD 0
    if bal < token_amount then ⟨s, some (.user .InsufficientTokens), false⟩
    else
      match calculate_sell_proceeds s.initial_price s.reserve_ratio
          s.total_supply token_amount with
      | .error f => ⟨s, some f, false⟩
      | .ok proceeds =>
        if proceeds < min_proceeds then
          ⟨s, some (.user .SlippageExceeded), false⟩
        else if s.reserve < proceeds then
          ⟨s, some (.user .InsufficientReserve), false⟩
        -- balance and supply are debited, then the transfer runs; both
        -- subtractions are underflow-free (guarded above / inside the
        -- proceeds computation)
        else if !transfer_ok then ⟨s, some (.user .TransferFailed), true⟩
        else
          ⟨{ s with balances := dictPut s.balances caller (bal - token_amount),
                    total_supply := s.total_supply - token_amount,
                    reserve := s.reserve - proceeds }, none, true⟩

/-- Model of the `deposit_reserve` entry point (amm/src/main.rs lines
394-408). -/
def deposit_reserve (s : AmmState) (caller amount : Nat)
    (transfer_ok : Bool) : AmmOutcome :=
  if caller ≠ s.admin then ⟨s, some (.user .NotAuthorized), false⟩
  else if amount = 0 then ⟨s, some (.user .InvalidAmount), false⟩
  else if !transfer_ok then ⟨s, some (.user .TransferFailed), true⟩
  else ⟨{ s with reserve := s.reserve + amount }, none, true⟩

/-- Model of the `admin_withdraw` entry point (amm/src/main.rs lines
411-428). -/
def admin_withdraw (s : AmmState) (caller amount _recipient : Nat)
    (transfer_ok : Bool) : AmmOutcome :=
  if caller ≠ s.admin then ⟨s, some (.user .NotAuthorized), false⟩
  else if s.reserve < amount then ⟨s, some (.user .InsufficientReserve), false⟩
  else if !transfer_ok then ⟨s, some (.user .TransferFailed), true⟩
  else ⟨{ s with reserve := s.reserve - amount }, none, true⟩

/-- One external call to the AMM contract, with its arguments and the
outcome of any value transfer the call performs. -/
inductive AmmCall : Type
  | initCall (caller initial_price reserve_ratio : Nat)
  | buyCall (caller token_amount max_cost : Nat) (transfer_ok : Bool)
  | sellCall (caller token_amount min_proceeds : Nat) (transfer_ok : Bool)
  | depositCall (caller amount : Nat) (transfer_ok : Bool)
  | withdrawCall (caller amount recipient : Nat) (transfer_ok : Bool)
  deriving DecidableEq, Repr

/-- Dispatch of the five state-mutating AMM entry points. -/
def ammStep (s : AmmState) : AmmCall → AmmOutcome
  | .initCall caller p r => initCurve s caller p r
  | .buyCall caller amt mc t => buy s caller amt mc t
  | .sellCall caller amt mp t => sell s caller amt mp t
  | .depositCall caller amt t => deposit_reserve s caller amt t
  | .withdrawCall caller amt rcp t => admin_withdraw s caller amt rcp t

/-- Sample AMM state used to instantiate the atomicity theorem. -/
def sampleAmm : AmmState :=
  { admin := 1, isInit := true, initial_price := 1000000000,
    reserve_ratio := 1000, total_supply := 0, balances := [], reserve := 0 }

-- ===========================================================================
-- Escrow vault (src/contracts/contract/src/main.rs)
-- ===========================================================================

/-- Error codes of the vault contract (`enum VaultError`). -/
inductive VaultError : Type
  | InsufficientBalance  -- 1
  | OrderNotFound        -- 2
  | NotOrderOwner        -- 3
  | NotAuthorized        -- 4
  | AlreadyLocked        -- 5
  | InvalidAmount        -- 6
  | TransferFailed       -- 7
  | MissingKey           -- 10
  deriving DecidableEq, Repr

/-- Stored state of the vault: `admin`, the `order_book` identity
(installed as `AccountHash::default()`), the `locked_cspr` and
`order_owners` dictionaries, and the vault purse balance. -/
structure VaultState : Type where
  admin : Nat
  order_book : Nat
  locked_cspr : List (Nat × Nat)
  order_owners : List (Nat × Nat)
  purse : Nat
  deriving DecidableEq, Repr

/-- Outcome of a vault call: post-state (pre-state on failure), failure
if any, and the native value refunded to the caller (used by
`cancel_order`; `0` for the other entry points). -/
structure VaultOutcome : Type where
  state : VaultState
  err : Option VaultError
  refunded : Nat
  deriving DecidableEq, Repr

namespace Vault

/-- Model of `only_order_book_or_admin` (contract/src/main.rs lines
101-120): the stored order-book identity authorizes only when it is not
the default account hash. -/
def only_order_book_or_admin (s : VaultState) (caller : Nat) :
    Option VaultError :=
  if caller = s.admin then none
  else if caller = s.order_book ∧ s.order_book ≠ ACCOUNT_HASH_DEFAULT then none
  else some .NotAuthorized

/-- Model of `lock_cspr` (contract/src/main.rs lines 129-160). -/
def lock_cspr (s : VaultState) (caller order_id amount : Nat)
    (transfer_ok : Bool) : VaultOutcome :=
  if amount = 0 then ⟨s, some .InvalidAmount, 0⟩
  -- if existing.is_some() { revert(AlreadyLocked) }
  else if (dictGet s.locked_cspr order_id).isSome then
    ⟨s, some .AlreadyLocked, 0⟩
  else if !transfer_ok then ⟨s, some .TransferFailed, 0⟩
  else
    ⟨{ s with purse := s.purse + amount,
              locked_cspr := dictPut s.locked_cspr order_id amount,
              order_owners := dictPut s.order_owners order_id caller },
      none, 0⟩

/-- Model of `unlock_cspr` (contract/src/main.rs lines 165-191).  The
entry is kept at the decremented value (never deleted). -/
def unlock_cspr (s : VaultState) (caller order_id _recipient amount : Nat)
    (transfer_ok : Bool) : VaultOutcome :=
  match only_order_book_or_admin s caller with
  | some e => ⟨s, some e, 0⟩
  | none =>
    match dictGet s.locked_cspr order_id with
    | none => ⟨s, some .OrderNotFound, 0⟩
    | some locked =>
      if locked < amount then ⟨s, some .InsufficientBalance, 0⟩
      else if !transfer_ok then ⟨s, some .TransferFailed, 0⟩
      else
        ⟨{ s with purse := s.purse - amount,
                  locked_cspr := dictPut s.locked_cspr order_id
                    (locked - amount) }, none, 0⟩

/-- Model of `cancel_order` (contract/src/main.rs lines 196-225): the
owner is refunded the full remaining locked amount, which is then set
to `0` (the entry is kept); with nothing locked the call succeeds as a
no-op. -/
def cancel_order (s : VaultState) (caller order_id : Nat)
    (transfer_ok : Bool) : VaultOutcome :=
  match dictGet s.order_owners order_id with
  | none => ⟨s, some .OrderNotFound, 0⟩
  | some owner =>
    if owner ≠ caller then ⟨s, some .NotOrderOwner, 0⟩
    else
      let locked := (dictGet s.locked_cspr order_id).getD 0
      if 0 < locked then
        if !transfer_ok then ⟨s, some .TransferFailed, 0⟩
        else
          ⟨{ s with purse := s.purse - locked,
                    locked_cspr := dictPut s.locked_cspr order_id 0 },
            none, locked⟩
      else ⟨s, none, 0⟩

end Vault

/-- Sample vault state: admin `1`, order book still at the default,
order `7` locked with `50` motes for owner `2`. -/
def sampleVault : VaultState :=
  { admin := 1, order_book := ACCOUNT_HASH_DEFAULT,
    locked_cspr := [(7, 50)], order_owners := [(7, 2)], purse := 50 }

/-- Vault state in which order `7` has been fully unlocked back to `0`
but the dictionary entry remains. -/
def sampleVaultDrained : VaultState :=
  { admin := 1, order_book := ACCOUNT_HASH_DEFAULT,
    locked_cspr := [(7, 0)], order_owners := [(7, 2)], purse := 0 }

-- ===========================================================================
-- Order book (src/contracts/orderbook/src/main.rs)
-- ===========================================================================

/-- Order side `SIDE_BUY` (`0`). -/
def SIDE_BUY : Nat := 0

/-- Order side `SIDE_SELL` (`1`). -/
def SIDE_SELL : Nat := 1

/-- Order status `STATUS_OPEN` (`0`). -/
def STATUS_OPEN : Nat := 0

/-- Order status `STATUS_FILLED` (`1`). -/
def STATUS_FILLED : Nat := 1

/-- Order status `STATUS_CANCELLED` (`2`). -/
def STATUS_CANCELLED : Nat := 2

/-- Order status `STATUS_PARTIAL` (`3`). -/
def STATUS_PARTIAL : Nat := 3

/-- Error codes of the order-book contract (`enum OrderBookError`). -/
inductive OrderBookError : Type
  | NotAuthorized       -- 1
  | OrderNotFound       -- 2
  | InsufficientFunds   -- 3
  | InvalidAmount       -- 4
  | InvalidPrice        -- 5
  | TransferFailed      -- 6
  | OrderAlreadyFilled  -- 7
  | MathOverflow        -- 8
  | MissingKey          -- 9
  deriving DecidableEq, Repr

/-- Failure of an order-book call: user error revert or `U512`
arithmetic panic. -/
inductive OBFailure : Type
  | user (e : OrderBookError)
  | arithTrap
  deriving DecidableEq, Repr

/-- An order record `(owner, side, price, amount, filled, status)`.  The
source serializes it as a comma-joined string; the field set is what
matters and is modelled directly. -/
structure Order : Type where
  owner : Nat
  side : Nat
  price : Nat
  amount : Nat
  filled : Nat
  status : Nat
  deriving DecidableEq, Repr

/-- Stored state of the order book: the `orders` dictionary (keyed by
the `u64` order id), the order counter, the running `best_bid` /
`best_ask` extrema, the internal `token_balances` ledger, and the
escrow purse balance. -/
structure OBState : Type where
  orders : List (Nat × Order)
  order_counter : Nat
  best_bid : Nat
  best_ask : Nat
  token_balances : List (Nat × Nat)
  escrow : Nat
  deriving DecidableEq, Repr

/-- Outcome of an order-book call: post-state (pre-state on failure),
failure if any, returned order id if any, and native value refunded to
the caller (`cancel_order` of a buy order). -/
structure OBOutcome : Type where
  state : OBState
  err : Option OBFailure
  ret : Option Nat
  refunded : Nat
  deriving DecidableEq, Repr

namespace OrderBook

/-- Model of `place_buy_order` (orderbook/src/main.rs lines 197-236). -/
def place_buy_order (s : OBState) (caller price amount : Nat)
    (transfer_ok : Bool) : OBOutcome :=
  if price = 0 then ⟨s, some (.user .InvalidPrice), none, 0⟩
  else if amount = 0 then ⟨s, some (.user .InvalidAmount), none, 0⟩
  -- let total_cost = price * amount / SCALE;  (U512 mul, then division)
  else if U512_LIMIT ≤ price * amount then ⟨s, some .arithTrap, none, 0⟩
  else
    let total_cost := price * amount / SCALE
    if !transfer_ok then ⟨s, some (.user .TransferFailed), none, 0⟩
    else
      let order_id := s.order_counter + 1
      let ord : Order := ⟨caller, SIDE_BUY, price, amount, 0, STATUS_OPEN⟩
      -- if price > current_best_bid { set_best_bid(price) }
      let best := if s.best_bid < price then price else s.best_bid
      ⟨{ s with escrow := s.escrow + total_cost,
                order_counter := order_id,
                orders := dictPut s.orders order_id ord,
                best_bid := best }, none, some order_id, 0⟩

/-- Model of `place_sell_order` (orderbook/src/main.rs lines 241-280). -/
def place_sell_order (s : OBState) (caller price amount : Nat) : OBOutcome :=
  if price = 0 then ⟨s, some (.user .InvalidPrice), none, 0⟩
  else if amount = 0 then ⟨s, some (.user .InvalidAmount), none, 0⟩
  else
    let user_balance := (dictGet s.token_balances caller).getD 0
    if user_balance < amount then ⟨s, some (.user .InsufficientFunds), none, 0⟩
    else
      let order_id := s.order_counter + 1
      let ord : Order := ⟨caller, SIDE_SELL, price, amount, 0, STATUS_OPEN⟩
      -- if price < current_best_ask { set_best_ask(price) }
      let best := if price < s.best_ask then price else s.best_ask
      ⟨{ s with token_balances := dictPut s.token_balances caller
                  (user_balance - amount),
                order_counter := order_id,
                orders := dictPut s.orders order_id ord,
                best_ask := best }, none, some order_id, 0⟩

/-- Model of `cancel_order` (orderbook/src/main.rs lines 284-335).  The
source checks ownership by substring containment of the stringified
caller hash, modelled as equality; it never reads or writes `best_bid`
or `best_ask`. -/
def cancel_order (s : OBState) (caller order_id : Nat)
    (transfer_ok : Bool) : OBOutcome :=
  match dictGet s.orders order_id with
  | none => ⟨s, some (.user .OrderNotFound), none, 0⟩
  | some ord =>
    if ord.owner ≠ caller then ⟨s, some (.user .NotAuthorized), none, 0⟩
    else if ord.status ≠ STATUS_OPEN ∧ ord.status ≠ STATUS_PARTIAL then
      ⟨s, some (.user .OrderAlreadyFilled), none, 0⟩
    -- let unfilled = amount - filled;  (U512 sub panics on underflow)
    else if ord.amount < ord.filled then ⟨s, some .arithTrap, none, 0⟩
    else
      let unfilled := ord.amount - ord.filled
      let cancelled : Order :=
        ⟨caller, ord.side, ord.price, ord.amount, ord.filled, STATUS_CANCELLED⟩
      if ord.side = SIDE_BUY then
        -- let total_refund = price * unfilled / SCALE;
        if U512_LIMIT ≤ ord.price * unfilled then ⟨s, some .arithTrap, none, 0⟩
        else
          let total_refund := ord.price * unfilled / SCALE
          if !transfer_ok then ⟨s, some (.user .TransferFailed), none, 0⟩
          else
            ⟨{ s with escrow := s.escrow - total_refund,
                      orders := dictPut s.orders order_id cancelled },
              none, none, total_refund⟩
      else
        let current_balance := (dictGet s.token_balances caller).getD 0
        if U512_LIMIT ≤ current_balance + unfilled then
          ⟨s, some .arithTrap, none, 0⟩
        else
          ⟨{ s with token_balances := dictPut s.token_balances caller
                      (current_balance + unfilled),
                    orders := dictPut s.orders order_id cancelled },
            none, none, 0⟩

end OrderBook

/-- Sample order book holding an open buy order `1` (price 2 CSPR per
token, 5 tokens, owner `3`) and an open sell order `2` (4 tokens,
owner `4`). -/
def sampleBook : OBState :=
  { orders := [(1, ⟨3, SIDE_BUY, 2000000000, 5, 0, STATUS_OPEN⟩),
               (2, ⟨4, SIDE_SELL, 3000000000, 4, 0, STATUS_OPEN⟩)],
    order_counter := 2, best_bid := 2000000000, best_ask := 3000000000,
    token_balances := [(4, 6)], escrow := 10 }

-- ===========================================================================
-- Launchpad vesting (src/contracts/launchpad/src/main.rs)
-- ===========================================================================

/-- Error codes of the launchpad contract (`enum LaunchpadError`). -/
inductive LaunchpadError : Type
  | NotAuthorized         -- 1
  | ProjectNotFound       -- 2
  | ProjectAlreadyExists  -- 3
  | InvalidAmount         -- 4
  | TransferFailed        -- 5
  | VestingNotReady       -- 6
  | AlreadyClaimed        -- 7
  | MathOverflow          -- 8
  | MissingKey            -- 9
  | InsufficientPayment   -- 10
  | AlreadyLaunched       -- 11
  deriving DecidableEq, Repr

/-- Failure of a launchpad call: user error revert or `U512` arithmetic
panic. -/
inductive LpFailure : Type
  | user (e : LaunchpadError)
  | arithTrap
  deriving DecidableEq, Repr

/-- The vested-amount computation inside `claim_vested`
(launchpad/src/main.rs lines 326-334): `total` once `now >= end_time`,
otherwise `total * (now - cliff_time) / (end_time - cliff_time)` with
floor division (the product is a `U512` multiplication and is guarded;
`elapsed` and `vesting_duration` are `u64` subtractions that cannot
underflow under the surrounding cliff check). -/
def vested_amount (total cliff_time end_time now : Nat) :
    Except LpFailure Nat :=
  if end_time ≤ now then .ok total
  else if U512_LIMIT ≤ total * (now - cliff_time) then .error .arithTrap
  else .ok (total * (now - cliff_time) / (end_time - cliff_time))

/-- Model of `claim_vested` (launchpad/src/main.rs lines 292-347) on a
vesting record `(founder, total, claimed, cliff_time, end_time)` at
block time `now`.  The founder check (substring match in the source) is
modelled as identity equality.  On success the result is the returned
`claimable` amount together with the updated stored `claimed` value
`claimed + claimable` (this sum equals `vested`, an in-range `U512`, so
it cannot overflow). -/
def claim_vested (founder caller total claimed cliff_time end_time now : Nat) :
    Except LpFailure (Nat × Nat) :=
  if caller ≠ founder then .error (.user .NotAuthorized)
  -- if now < cliff_time { revert(VestingNotReady) }
  else if now < cliff_time then .error (.user .VestingNotReady)
  else
    match vested_amount total cliff_time end_time now with
    | .error f => .error f
    | .ok vested =>
      -- let claimable = vested - claimed;  (U512 sub panics on underflow)
      if vested < claimed then .error .arithTrap
      else
        let claimable := vested - claimed
        if claimable = 0 then .error (.user .AlreadyClaimed)
        else .ok (claimable, claimed + claimable)

-- ===========================================================================
-- Basic dictionary lemmas
-- ===========================================================================

theorem dictGet_dictPut {β : Type} (l : List (Nat × β)) (k j : Nat) (v : β) :
    dictGet (dictPut l k v) j = if k = j then some v else dictGet l j := by
  simp [dictGet, dictPut]

theorem dictGet_dictPut_self {β : Type} (l : List (Nat × β)) (k : Nat) (v : β) :
    dictGet (dictPut l k v) k = some v := by
  simp [dictGet, dictPut]

-- ===========================================================================
-- Claim C1: exact buy-cost formula
-- ===========================================================================

/-- Whenever `calculate_buy_cost` returns a value (no arithmetic trap),
that value is the exact unreduced-form integral: the linear part plus
the quadratic part with a single truncating division by
`20000 * SCALE`. -/
theorem calculate_buy_cost_ok_eq (p r S D c : Nat)
    (h : calculate_buy_cost p r S D = .ok c) :
    c = p * D + p * r * ((S + D) ^ 2 - S ^ 2) / (20000 * SCALE) := by
  simp only [calculate_buy_cost] at h
  split_ifs at h
  have hval := Except.ok.inj h
  rw [pow_two, pow_two]
  exact hval.symm

/-- C1: for every initialized curve (initial_price `p > 0`,
reserve_ratio `r`), supply `S` and purchase amount `D > 0`, the cost
computed by `calculate_buy_cost` equals
`p*D + (p*r*((S+D)^2 - S^2)) / (20000*SCALE)` with a single truncating
division; in particular for `p = 1000000000`, `r = 1000`, `S = 0`,
`D = 100` the cost is exactly `100000000500`. -/
theorem claim_C1_buy_cost_formula (p r S D c : Nat) (hp : 0 < p) (hD : 0 < D)
    (h : calculate_buy_cost p r S D = .ok c) :
    c = p * D + p * r * ((S + D) ^ 2 - S ^ 2) / (20000 * SCALE) ∧
    calculate_buy_cost 1000000000 1000 0 100 = .ok 100000000500 :=
  ⟨calculate_buy_cost_ok_eq p r S D c h, by decide⟩

theorem claim_C1_buy_cost_formula_witness :
    0 < (1000000000 : Nat) ∧ 0 < (100 : Nat) ∧
    ((100000000500 : Nat) =
        1000000000 * 100 +
          1000000000 * 1000 * ((0 + 100) ^ 2 - 0 ^ 2) / (20000 * SCALE) ∧
      calculate_buy_cost 1000000000 1000 0 100 = .ok 100000000500) :=
  ⟨by decide, by decide,
    claim_C1_buy_cost_formula 1000000000 1000 0 100 100000000500
      (by decide) (by decide) (by decide)⟩

-- ===========================================================================
-- Claim C2: atomicity of the AMM entry points, check ordering in buy
-- ===========================================================================

/-- C2: for every AMM entry point (buy, sell, initialize,
deposit_reserve, admin_withdraw) and every input, a failing call leaves
the state exactly as before (no partial state change is observable),
and in `buy` a transfer is attempted only after the initialization,
zero-amount and slippage checks all pass. -/
theorem claim_C2_atomic_amm :
    (∀ (s : AmmState) (c : AmmCall) (f : AmmFailure),
        (ammStep s c).err = some f → (ammStep s c).state = s) ∧
    (∀ (s : AmmState) (caller amt mc : Nat) (t : Bool),
        (ammStep s (.buyCall caller amt mc t)).transferAttempted = true →
          s.isInit = true ∧ amt ≠ 0 ∧
          ∃ cost, calculate_buy_cost s.initial_price s.reserve_ratio
              s.total_supply amt = .ok cost ∧ cost ≤ mc) := by
  constructor
  · intro s c f h
    cases c with
    | initCall caller p r =>
      simp only [ammStep, initCurve] at h ⊢
      split_ifs at h ⊢ <;> simp_all
    | buyCall caller amt mc t =>
      simp only [ammStep, buy] at h ⊢
      rcases hc : calculate_buy_cost s.initial_price s.reserve_ratio
          s.total_supply amt with f' | cost <;>
        simp only [hc] at h ⊢ <;>
        (try split_ifs at h ⊢) <;> simp_all
    | sellCall caller amt mp t =>
      simp only [ammStep, sell] at h ⊢
      rcases hc : calculate_sell_proceeds s.initial_price s.reserve_ratio
          s.total_supply amt with f' | proceeds <;>
        simp only [hc] at h ⊢ <;>
        (try split_ifs at h ⊢) <;> simp_all
    | depositCall caller amt t =>
      simp only [ammStep, deposit_reserve] at h ⊢
      split_ifs at h ⊢ <;> simp_all
    | withdrawCall caller amt rcp t =>
      simp only [ammStep, admin_withdraw] at h ⊢
      split_ifs at h ⊢ <;> simp_all
  · intro s caller amt mc t h
    simp only [ammStep, buy] at h
    rcases hc : calculate_buy_cost s.initial_price s.reserve_ratio
        s.total_supply amt with f' | cost <;>
      simp only [hc] at h <;> (try split_ifs at h with h1 h2 h3 h4 h5) <;>
      simp_all <;>
      exact ⟨cost, rfl, by omega⟩

theorem claim_C2_atomic_amm_witness :
    (ammStep sampleAmm (.buyCall 2 0 0 true)).state = sampleAmm ∧
    sampleAmm.isInit = true :=
  ⟨claim_C2_atomic_amm.1 sampleAmm (.buyCall 2 0 0 true)
      (.user .InvalidAmount) (by decide),
    (claim_C2_atomic_amm.2 sampleAmm 2 100 200000000000 true (by decide)).1⟩

-- ===========================================================================
-- Claim C3: round trip never profits
-- ===========================================================================

theorem buy_ok_supply_bound (p r S D c : Nat)
    (h : calculate_buy_cost p r S D = .ok c) : S + D < U512_LIMIT := by
  simp only [calculate_buy_cost] at h
  split_ifs at h with h1 h2 h3 h4 h5 h6 h7 h8
  exact Nat.lt_of_not_le h3

/-- Selling `D` tokens back from supply `S + D` runs through exactly the
same guarded arithmetic as buying `D` tokens at supply `S`, and produces
the same value. -/
theorem sell_after_buy_eq (p r S D : Nat) (hSD : S + D < U512_LIMIT) :
    calculate_sell_proceeds p r (S + D) D = calculate_buy_cost p r S D := by
  have h0 : ¬ (S + D < D) := by omega
  have h1 : ¬ (U512_LIMIT ≤ S + D) := by omega
  simp only [calculate_sell_proceeds, calculate_buy_cost, Nat.add_sub_cancel,
    if_neg h0, if_neg h1]

/-- C3: for every curve, supply `S` and amount `D > 0` (with
`D ≤ S + D`), buying `D` at supply `S` and immediately selling `D` from
the resulting supply `S + D` yields proceeds `q ≤ c`; there is no input
with `q > c` (here in fact `q = c`, which the `≤` of the claim
includes). -/
theorem claim_C3_round_trip (p r S D c q : Nat) (hD : 0 < D)
    (hDS : D ≤ S + D)
    (hbuy : calculate_buy_cost p r S D = .ok c)
    (hsell : calculate_sell_proceeds p r (S + D) D = .ok q) :
    q ≤ c := by
  have hSD := buy_ok_supply_bound p r S D c hbuy
  rw [sell_after_buy_eq p r S D hSD, hbuy] at hsell
  exact Nat.le_of_eq (Except.ok.inj hsell).symm

theorem claim_C3_round_trip_witness :
    0 < (100 : Nat) ∧ (100000000500 : Nat) ≤ 100000000500 :=
  ⟨by decide,
    claim_C3_round_trip 1000000000 1000 0 100 100000000500 100000000500
      (by decide) (by decide) (by decide) (by decide)⟩

-- ===========================================================================
-- Claim C4: escrow exactness of lock / unlock / cancel
-- ===========================================================================

/-- C4: for every order id and amounts `A > 0`, `B`: a successful
`lock(id, A)` on a fresh id stores exactly `A`; `lock` on an id with an
existing entry fails `AlreadyLocked` and changes nothing; an authorized
`unlock(id, recipient, B)` with `B ≤ locked` decrements the stored
amount by exactly `B`, fails `InsufficientBalance` when `B > locked`
and `OrderNotFound` when no entry exists; `cancel_order` by the owner
refunds exactly the remaining locked amount and sets it to `0`,
succeeding as a no-op when it is already `0`. -/
theorem claim_C4_escrow_exactness :
    (∀ (s : VaultState) (caller id A : Nat),
        dictGet s.locked_cspr id = none → 0 < A →
        (Vault.lock_cspr s caller id A true).err = none ∧
        dictGet (Vault.lock_cspr s caller id A true).state.locked_cspr id
          = some A) ∧
    (∀ (s : VaultState) (caller id A v : Nat) (t : Bool), 0 < A →
        dictGet s.locked_cspr id = some v →
        Vault.lock_cspr s caller id A t = ⟨s, some .AlreadyLocked, 0⟩) ∧
    (∀ (s : VaultState) (caller id rcp B L : Nat),
        Vault.only_order_book_or_admin s caller = none →
        dictGet s.locked_cspr id = some L → B ≤ L →
        (Vault.unlock_cspr s caller id rcp B true).err = none ∧
        dictGet (Vault.unlock_cspr s caller id rcp B true).state.locked_cspr id
          = some (L - B)) ∧
    (∀ (s : VaultState) (caller id rcp B L : Nat) (t : Bool),
        Vault.only_order_book_or_admin s caller = none →
        dictGet s.locked_cspr id = some L → L < B →
        Vault.unlock_cspr s caller id rcp B t
          = ⟨s, some .InsufficientBalance, 0⟩) ∧
    (∀ (s : VaultState) (caller id rcp B : Nat) (t : Bool),
        Vault.only_order_book_or_admin s caller = none →
        dictGet s.locked_cspr id = none →
        Vault.unlock_cspr s caller id rcp B t = ⟨s, some .OrderNotFound, 0⟩) ∧
    (∀ (s : VaultState) (caller id L : Nat),
        dictGet s.order_owners id = some caller →
        dictGet s.locked_cspr id = some L → 0 < L →
        (Vault.cancel_order s caller id true).err = none ∧
        (Vault.cancel_order s caller id true).refunded = L ∧
        dictGet (Vault.cancel_order s caller id true).state.locked_cspr id
          = some 0) ∧
    (∀ (s : VaultState) (caller id : Nat) (t : Bool),
        dictGet s.order_owners id = some caller →
        dictGet s.locked_cspr id = some 0 →
        Vault.cancel_order s caller id t = ⟨s, none, 0⟩) := by
  refine ⟨?_, ?_, ?_, ?_, ?_, ?_, ?_⟩
  · intro s caller id A h hA
    simp [Vault.lock_cspr, h, hA.ne', dictGet_dictPut_self]
  · intro s caller id A v t hA h
    simp [Vault.lock_cspr, h, hA.ne']
  · intro s caller id rcp B L hauth h hBL
    simp [Vault.unlock_cspr, hauth, h, Nat.not_lt.mpr hBL, dictGet_dictPut_self]
  · intro s caller id rcp B L t hauth h hLB
    simp [Vault.unlock_cspr, hauth, h, hLB]
  · intro s caller id rcp B t hauth h
    simp [Vault.unlock_cspr, hauth, h]
  · intro s caller id L hown h hL
    simp [Vault.cancel_order, hown, h, hL, dictGet_dictPut_self]
  · intro s caller id t hown h
    simp [Vault.cancel_order, hown, h]

theorem claim_C4_escrow_exactness_witness :
    (Vault.lock_cspr sampleVault 2 9 30 true).err = none ∧
    dictGet (Vault.lock_cspr sampleVault 2 9 30 true).state.locked_cspr 9
      = some 30 :=
  claim_C4_escrow_exactness.1 sampleVault 2 9 30 (by decide) (by decide)

-- ===========================================================================
-- Claim C5: vesting boundaries of claim_vested
-- ===========================================================================

/-- C5: for every vesting record with `claimed ≤ total` and the founder
calling: `claim_vested` fails `VestingNotReady` whenever
`now < cliff_time`; for `cliff_time ≤ now < end_time` a successful
claim returns `total*(now-cliff_time)/(end_time-cliff_time) - claimed`
(the floor-division vested amount minus what was claimed); for
`now ≥ end_time` (in particular `now = end_time`) with anything left to
claim it returns exactly `total - claimed`; and a second call at the
same `now` fails `AlreadyClaimed`. -/
theorem claim_C5_vesting_boundaries (founder total claimed cliff_time
    end_time now : Nat) (hct : claimed ≤ total) :
    (now < cliff_time →
        claim_vested founder founder total claimed cliff_time end_time now
          = .error (.user .VestingNotReady)) ∧
    (∀ c nc, cliff_time ≤ now → now < end_time →
        claim_vested founder founder total claimed cliff_time end_time now
          = .ok (c, nc) →
        c = total * (now - cliff_time) / (end_time - cliff_time) - claimed) ∧
    (cliff_time ≤ now → end_time ≤ now → claimed < total →
        claim_vested founder founder total claimed cliff_time end_time now
          = .ok (total - claimed, total)) ∧
    (∀ c nc,
        claim_vested founder founder total claimed cliff_time end_time now
          = .ok (c, nc) →
        claim_vested founder founder total nc cliff_time end_time now
          = .error (.user .AlreadyClaimed)) := by
  refine ⟨?_, ?_, ?_, ?_⟩
  · intro hlt
    simp [claim_vested, hlt]
  · intro c nc hcliff hend h
    simp only [claim_vested, if_neg (by omega : ¬ now < cliff_time),
      if_neg (by simp : ¬ (founder ≠ founder))] at h
    rcases hv : vested_amount total cliff_time end_time now with f | vested
    · simp [hv] at h
    · simp only [hv] at h
      split_ifs at h
      have hc := (Prod.mk.injEq _ _ _ _).mp (Except.ok.inj h)
      have hvested : vested
          = total * (now - cliff_time) / (end_time - cliff_time) := by
        simp only [vested_amount, if_neg (by omega : ¬ end_time ≤ now)] at hv
        split_ifs at hv
        exact (Except.ok.inj hv).symm
      omega
  · intro hcliff hend hlt
    have hv : vested_amount total cliff_time end_time now = .ok total := by
      simp [vested_amount, hend]
    simp [claim_vested, if_neg (by omega : ¬ now < cliff_time), hv,
      Nat.not_lt.mpr hct, Nat.sub_ne_zero_of_lt hlt]
    omega
  · intro c nc h
    simp only [claim_vested,
      if_neg (by simp : ¬ (founder ≠ founder))] at h ⊢
    split_ifs at h with hcl
    rcases hv : vested_amount total cliff_time end_time now with f | vested
    · simp [hv] at h
    · simp only [hv] at h ⊢
      split_ifs at h with h1 h2
      have hc := (Prod.mk.injEq _ _ _ _).mp (Except.ok.inj h)
      have hnc : nc = vested := by omega
      simp [if_neg hcl, hnc]

theorem claim_C5_vesting_boundaries_witness :
    (100 : Nat) ≤ 1000 ∧ (10 : Nat) ≤ 20 ∧ (20 : Nat) ≤ 20 ∧
      (100 : Nat) < 1000 ∧
    claim_vested 9 9 1000 100 10 20 20 = .ok (900, 1000) :=
  ⟨by decide, by decide, by decide, by decide,
    (claim_C5_vesting_boundaries 9 1000 100 10 20 20 (by decide)).2.2.1
      (by decide) (by decide) (by decide)⟩

-- ===========================================================================
-- Claim C6: cancel_order lifecycle and exact refunds
-- ===========================================================================

/-- C6: `cancel_order` on a `Cancelled` or `Filled` order (by its
owner) fails `OrderAlreadyFilled` and leaves everything unchanged; by
the owner on an `Open` buy order with `filled = 0` it refunds exactly
`price*amount/SCALE` native value and marks the order `Cancelled`; for
a sell order it credits exactly the unfilled amount back to the
owner's internal token balance. -/
theorem claim_C6_cancel_order :
    (∀ (s : OBState) (caller id : Nat) (ord : Order) (t : Bool),
        dictGet s.orders id = some ord → ord.owner = caller →
        ord.status = STATUS_CANCELLED ∨ ord.status = STATUS_FILLED →
        OrderBook.cancel_order s caller id t
          = ⟨s, some (.user .OrderAlreadyFilled), none, 0⟩) ∧
    (∀ (s : OBState) (caller id : Nat) (ord : Order),
        dictGet s.orders id = some ord → ord.owner = caller →
        ord.status = STATUS_OPEN → ord.side = SIDE_BUY → ord.filled = 0 →
        ord.price * ord.amount < U512_LIMIT →
        (OrderBook.cancel_order s caller id true).err = none ∧
        (OrderBook.cancel_order s caller id true).refunded
          = ord.price * ord.amount / SCALE ∧
        dictGet (OrderBook.cancel_order s caller id true).state.orders id
          = some { ord with status := STATUS_CANCELLED }) ∧
    (∀ (s : OBState) (caller id : Nat) (ord : Order) (t : Bool),
        dictGet s.orders id = some ord → ord.owner = caller →
        ord.status = STATUS_OPEN ∨ ord.status = STATUS_PARTIAL →
        ord.side = SIDE_SELL → ord.filled ≤ ord.amount →
        (dictGet s.token_balances caller).getD 0 + (ord.amount - ord.filled)
          < U512_LIMIT →
        (OrderBook.cancel_order s caller id t).err = none ∧
        dictGet (OrderBook.cancel_order s caller id t).state.token_balances
            caller
          = some ((dictGet s.token_balances caller).getD 0
              + (ord.amount - ord.filled))) := by
  refine ⟨?_, ?_, ?_⟩
  · intro s caller id ord t hord hown hstat
    have hs : ord.status ≠ STATUS_OPEN ∧ ord.status ≠ STATUS_PARTIAL := by
      rcases hstat with h | h <;> rw [h] <;> exact ⟨by decide, by decide⟩
    simp [OrderBook.cancel_order, hord, hown, hs]
  · intro s caller id ord hord hown hstat hside hfill hlim
    have hsp : ¬ (ord.status ≠ STATUS_OPEN ∧ ord.status ≠ STATUS_PARTIAL) := by
      rw [hstat]; simp
    simp [OrderBook.cancel_order, hord, hown, hsp, hside, hfill,
      Nat.not_le.mpr hlim, dictGet_dictPut_self]
  · intro s caller id ord t hord hown hstat hside hfl hlim
    have hsp : ¬ (ord.status ≠ STATUS_OPEN ∧ ord.status ≠ STATUS_PARTIAL) := by
      rcases hstat with h | h <;> rw [h] <;> simp
    have hside2 : ord.side ≠ SIDE_BUY := by
      rw [hside]; decide
    simp [OrderBook.cancel_order, hord, hown, hsp, hside2,
      Nat.not_lt.mpr hfl, Nat.not_le.mpr hlim, dictGet_dictPut_self]

theorem claim_C6_cancel_order_witness :
    (OrderBook.cancel_order sampleBook 3 1 true).err = none ∧
    (OrderBook.cancel_order sampleBook 3 1 true).refunded
      = 2000000000 * 5 / SCALE ∧
    dictGet (OrderBook.cancel_order sampleBook 3 1 true).state.orders 1
      = some ⟨3, SIDE_BUY, 2000000000, 5, 0, STATUS_CANCELLED⟩ :=
  claim_C6_cancel_order.2.1 sampleBook 3 1
    ⟨3, SIDE_BUY, 2000000000, 5, 0, STATUS_OPEN⟩
    (by decide) (by decide) (by decide) (by decide) (by decide) (by decide)

-- ===========================================================================
-- Claim C7: best_bid / best_ask are running extrema, never recomputed
-- ===========================================================================

/-- C7: `place_buy_order` with price `p` sets `best_bid` to
`max(previous best_bid, p)`; `place_sell_order` sets `best_ask` to
`min(previous best_ask, p)`; `cancel_order` never changes `best_bid` or
`best_ask` on any input or outcome, so the extremum established by a
cancelled order stays stored until a strictly better order arrives. -/
theorem claim_C7_best_extrema_only_on_insert :
    (∀ (s : OBState) (caller p a : Nat) (t : Bool),
        (OrderBook.place_buy_order s caller p a t).err = none →
        (OrderBook.place_buy_order s caller p a t).state.best_bid
          = max s.best_bid p) ∧
    (∀ (s : OBState) (caller p a : Nat),
        (OrderBook.place_sell_order s caller p a).err = none →
        (OrderBook.place_sell_order s caller p a).state.best_ask
          = min s.best_ask p) ∧
    (∀ (s : OBState) (caller id : Nat) (t : Bool),
        (OrderBook.cancel_order s caller id t).state.best_bid = s.best_bid ∧
        (OrderBook.cancel_order s caller id t).state.best_ask = s.best_ask) := by
  refine ⟨?_, ?_, ?_⟩
  · intro s caller p a t h
    unfold OrderBook.place_buy_order at h ⊢
    split_ifs at h ⊢ <;> simp_all <;> omega
  · intro s caller p a h
    unfold OrderBook.place_sell_order at h ⊢
    by_cases h1 : p = 0
    · simp [h1] at h
    · by_cases h2 : a = 0
      · simp [h1, h2] at h
      · by_cases h3 : (dictGet s.token_balances caller).getD 0 < a
        · simp [h1, h2, h3] at h
        · have : (if p < s.best_ask then p else s.best_ask)
              = min s.best_ask p := by
            split <;> omega
          simp [h1, h2, h3, this]
  · intro s caller id t
    constructor <;>
    · simp only [OrderBook.cancel_order]
      repeat' split
      all_goals rfl

theorem claim_C7_best_extrema_witness :
    (OrderBook.place_buy_order sampleBook 5 2500000000 1 true).err = none ∧
    (OrderBook.place_buy_order sampleBook 5 2500000000 1 true).state.best_bid
      = max sampleBook.best_bid 2500000000 ∧
    (OrderBook.cancel_order sampleBook 3 1 true).state.best_bid
      = sampleBook.best_bid :=
  ⟨by decide,
    claim_C7_best_extrema_only_on_insert.1 sampleBook 5 2500000000 1 true
      (by decide),
    (claim_C7_best_extrema_only_on_insert.2.2 sampleBook 3 1 true).1⟩

-- ===========================================================================
-- Claim C8: default order-book identity is never authorized
-- ===========================================================================

/-- C8: for every caller who is not the vault admin, while the stored
order-book identity is still its installation default (the zero account
hash), `only_order_book_or_admin` rejects with `NotAuthorized`, and so
does `unlock_cspr`; in particular a caller equal to the default (zero)
account hash is still rejected. -/
theorem claim_C8_default_order_book_rejected
    (s : VaultState) (caller id rcp B : Nat) (t : Bool)
    (hc : caller ≠ s.admin) (hb : s.order_book = ACCOUNT_HASH_DEFAULT) :
    Vault.only_order_book_or_admin s caller = some .NotAuthorized ∧
    Vault.unlock_cspr s caller id rcp B t = ⟨s, some .NotAuthorized, 0⟩ := by
  have hpred : Vault.only_order_book_or_admin s caller
      = some .NotAuthorized := by
    simp [Vault.only_order_book_or_admin, hc, hb]
  exact ⟨hpred, by simp [Vault.unlock_cspr, hpred]⟩

theorem claim_C8_default_order_book_rejected_witness :
    (0 : Nat) ≠ sampleVault.admin ∧
    sampleVault.order_book = ACCOUNT_HASH_DEFAULT ∧
    (Vault.only_order_book_or_admin sampleVault 0 = some .NotAuthorized ∧
      Vault.unlock_cspr sampleVault 0 7 3 10 true
        = ⟨sampleVault, some .NotAuthorized, 0⟩) :=
  ⟨by decide, by decide,
    claim_C8_default_order_book_rejected sampleVault 0 7 3 10 true
      (by decide) (by decide)⟩

-- ===========================================================================
-- Claim C9: overflow behavior of the wide-integer arithmetic
-- ===========================================================================

theorem calculate_buy_cost_error_trap (p r S D : Nat) (f : AmmFailure)
    (h : calculate_buy_cost p r S D = .error f) : f = .arithTrap := by
  simp only [calculate_buy_cost] at h
  split_ifs at h
  all_goals exact (Except.error.inj h).symm

theorem calculate_sell_proceeds_error_cases (p r S D : Nat) (f : AmmFailure)
    (h : calculate_sell_proceeds p r S D = .error f) :
    f = .arithTrap ∨ f = .user .InsufficientTokens := by
  simp only [calculate_sell_proceeds] at h
  split_ifs at h
  all_goals first
    | exact Or.inl (Except.error.inj h).symm
    | exact Or.inr (Except.error.inj h).symm

/-- C9 (counterexample to the claim as stated): with
`initial_price = reserve_ratio = 2^256` the very first multiplication
`initial_price * reserve_ratio` overflows the 512-bit domain, and the
call fails with the arithmetic panic of the `U512` operator — not with
the `MathOverflow` user error the claim names (that error code is
declared in every error enum but never emitted anywhere). -/
theorem claim_C9_counterexample :
    calculate_buy_cost (2 ^ 256) (2 ^ 256) 0 1
      = .error AmmFailure.arithTrap ∧
    ¬ (calculate_buy_cost (2 ^ 256) (2 ^ 256) 0 1
        = .error (.user AmmError.MathOverflow)) :=
  ⟨by decide, by decide⟩

/-- C9 (amended): every multiplication of the AMM cost/proceeds
computations (and the order-book cost product) is carried out in the
wide 512-bit domain, and an intermediate product that would overflow it
makes the call fail — by the `U512` arithmetic panic, never by silent
wraparound; a returned value is always the exact big-integer result.
However the failure is never surfaced as the `MathOverflow` user error:
that code is declared but unused. -/
theorem claim_C9_overflow_traps :
    (∀ p r S D : Nat,
        (∃ c, calculate_buy_cost p r S D = .ok c ∧
            c = p * D + p * r * ((S + D) ^ 2 - S ^ 2) / (20000 * SCALE)) ∨
        calculate_buy_cost p r S D = .error AmmFailure.arithTrap) ∧
    (∀ p r S D : Nat,
        calculate_buy_cost p r S D
          ≠ .error (.user AmmError.MathOverflow)) ∧
    (∀ p r S D : Nat,
        calculate_sell_proceeds p r S D
          ≠ .error (.user AmmError.MathOverflow)) ∧
    (∀ (s : OBState) (caller price amount : Nat) (t : Bool),
        price ≠ 0 → amount ≠ 0 → U512_LIMIT ≤ price * amount →
        OrderBook.place_buy_order s caller price amount t
          = ⟨s, some OBFailure.arithTrap, none, 0⟩) := by
  refine ⟨?_, ?_, ?_, ?_⟩
  · intro p r S D
    cases hc : calculate_buy_cost p r S D with
    | ok c => exact Or.inl ⟨c, rfl, calculate_buy_cost_ok_eq p r S D c hc⟩
    | error f =>
      exact Or.inr (by rw [calculate_buy_cost_error_trap p r S D f hc])
  · intro p r S D h
    exact AmmFailure.noConfusion (calculate_buy_cost_error_trap p r S D _ h)
  · intro p r S D h
    rcases calculate_sell_proceeds_error_cases p r S D _ h with hf | hf
    · exact AmmFailure.noConfusion hf
    · exact AmmError.noConfusion (AmmFailure.user.inj hf)
  · intro s caller price amount t hp ha hle
    simp [OrderBook.place_buy_order, hp, ha, hle]

theorem claim_C9_overflow_traps_witness :
    (2 ^ 256 : Nat) ≠ 0 ∧ U512_LIMIT ≤ (2 ^ 256 : Nat) * 2 ^ 256 ∧
    OrderBook.place_buy_order sampleBook 5 (2 ^ 256) (2 ^ 256) true
      = ⟨sampleBook, some OBFailure.arithTrap, none, 0⟩ :=
  ⟨by decide, by decide,
    claim_C9_overflow_traps.2.2.2 sampleBook 5 (2 ^ 256) (2 ^ 256) true
      (by decide) (by decide) (by decide)⟩

-- ===========================================================================
-- Claim C10: a vault order id is consumed forever
-- ===========================================================================

/-- C10: `unlock_cspr` and `cancel_order` keep the dictionary entry
(at the decremented value resp. `0`) rather than deleting it, and
`lock_cspr` rejects whenever any entry exists; hence once an id has
been locked, every later `lock` on it (amount `A > 0`) fails
`AlreadyLocked`, even after the locked amount reached `0`. -/
theorem claim_C10_order_id_never_relockable :
    (∀ (s : VaultState) (caller id A v : Nat) (t : Bool), 0 < A →
        dictGet s.locked_cspr id = some v →
        Vault.lock_cspr s caller id A t
          = ⟨s, some VaultError.AlreadyLocked, 0⟩) ∧
    (∀ (s : VaultState) (caller id rcp B j : Nat) (t : Bool),
        (Vault.unlock_cspr s caller id rcp B t).err = none →
        (dictGet s.locked_cspr j).isSome →
        (dictGet (Vault.unlock_cspr s caller id rcp B t).state.locked_cspr
          j).isSome) ∧
    (∀ (s : VaultState) (caller id j : Nat) (t : Bool),
        (Vault.cancel_order s caller id t).err = none →
        (dictGet s.locked_cspr j).isSome →
        (dictGet (Vault.cancel_order s caller id t).state.locked_cspr
          j).isSome) := by
  refine ⟨?_, ?_, ?_⟩
  · intro s caller id A v t hA h
    simp [Vault.lock_cspr, h, hA.ne']
  · intro s caller id rcp B j t herr hj
    unfold Vault.unlock_cspr at herr ⊢
    cases hauth : Vault.only_order_book_or_admin s caller with
    | some e => simp [hauth] at herr
    | none =>
      cases hl : dictGet s.locked_cspr id with
      | none => simp [hauth, hl] at herr
      | some locked =>
        simp only [hauth, hl] at herr ⊢
        split_ifs at herr ⊢ with h1 h2
        show (dictGet (dictPut s.locked_cspr id (locked - B)) j).isSome = true
        rw [dictGet_dictPut]
        split
        · simp
        · exact hj
  · intro s caller id j t herr hj
    unfold Vault.cancel_order at herr ⊢
    cases hown : dictGet s.order_owners id with
    | none => simp [hown] at herr
    | some owner =>
      simp only [hown] at herr ⊢
      split_ifs at herr ⊢ with h1 h2 h3
      · show (dictGet (dictPut s.locked_cspr id 0) j).isSome = true
        rw [dictGet_dictPut]
        split
        · simp
        · exact hj
      · exact hj

theorem claim_C10_order_id_never_relockable_witness :
    0 < (30 : Nat) ∧
    Vault.lock_cspr sampleVaultDrained 2 7 30 true
      = ⟨sampleVaultDrained, some VaultError.AlreadyLocked, 0⟩ :=
  ⟨by decide,
    claim_C10_order_id_never_relockable.1 sampleVaultDrained 2 7 30 0 true
      (by decide) (by decide)⟩
